import Mathlib

/-!
Shallow embedding of the vector-layer portion of the godal GDAL binding
(`vector.go`), covering handle lifecycle (`Geometry.Close`, `Feature.Close`,
`Geometry.SubGeometry`, `Feature.Geometry`), null-handle accessors, the field
snapshot (`Feature.Fields`), the typed field accessor
(`FieldValueQuerier.GetValue` / `SetValue`), geometry construction from WKB,
and the burn-value precheck of `Dataset.RasterizeGeometry`.

Modelling conventions:
* A Go pointer / cgo handle (`C.OGRGeometryH`, `C.OGRFeatureH`, ...) is an
  `Option Nat`: `none` is the nil pointer.
* Calls into the native GDAL library are either recorded in a trace
  (`NativeCall`) or executed against an explicit model of the native feature
  store (`NativeWorld`); values that the native library produces on its own
  (fresh handles, error-context results) are passed in as parameters.
* Go functions returning `(T, error)` become `GoResult`; a Go runtime panic
  (e.g. indexing an empty slice) is the `panicked` constructor.
* Go `float64` payloads are never computed with in the modelled code, only
  stored and passed along, so they are represented by an integer carrier
  with decidable equality.
-/

set_option autoImplicit false

namespace Godal

/-- Carrier for Go `float64` payloads.  The modelled code only stores and
forwards doubles (field payloads, burn values), never performs arithmetic on
them, so an integer carrier with decidable equality is a faithful stand-in. -/
abbrev Float64 := Int

/-- Result of a Go call that returns `(T, error)`.  `panicked` models a Go
runtime panic, which aborts the call without producing either value. -/
inductive GoResult (α : Type) where
  | ok (a : α)
  | goErr (msg : String)
  | panicked (msg : String)
deriving DecidableEq

/-- Is the result a successful return? -/
def GoResult.isOk {α : Type} : GoResult α → Bool
  | .ok _ => true
  | _ => false

/-- A call into the native GDAL library that releases a native object.
`Geometry.Close` emits `destroyGeometry` (wrapping `OGR_G_DestroyGeometry`),
`Feature.Close` emits `destroyFeature` (wrapping `OGR_F_Destroy`). -/
inductive NativeCall where
  | destroyGeometry (h : Nat)
  | destroyFeature (h : Nat)
deriving DecidableEq

/-- Effect of one destroy call on the set of still-allocated native object
handles: the destroyed handle is removed, everything else is untouched. -/
def applyNativeCall (live : List Nat) : NativeCall → List Nat
  | .destroyGeometry h => live.filter (fun x => x ≠ h)
  | .destroyFeature h => live.filter (fun x => x ≠ h)

/-- Effect of a trace of destroy calls on the live native handles. -/
def applyNativeCalls (live : List Nat) (cs : List NativeCall) : List Nat :=
  cs.foldl applyNativeCall live

/-- `type Geometry struct { isOwned bool; handle C.OGRGeometryH }` -/
structure Geometry where
  isOwned : Bool
  handle : Option Nat
deriving DecidableEq

/-- `type Feature struct { handle C.OGRFeatureH }` -/
structure Feature where
  handle : Option Nat
deriving DecidableEq

/-- `type SpatialRef struct { handle ...; isOwned bool }` (fields as used by
`vector.go`). -/
structure SpatialRef where
  handle : Option Nat
  isOwned : Bool
deriving DecidableEq

/-- `func (g *Geometry) Close()`: returns immediately if the handle is nil;
otherwise calls `OGR_G_DestroyGeometry` when owned, and nils the handle in
every non-nil case.  The Go method mutates `g` and returns nothing; the model
returns the updated receiver together with the trace of native destroy calls
the method performed. -/
def Geometry.Close (g : Geometry) : Geometry × List NativeCall :=
  match g.handle with
  | none => (g, [])
  | some h =>
    ({ g with handle := none },
      if g.isOwned then [NativeCall.destroyGeometry h] else [])

/-- `func (f *Feature) Close()`: returns immediately if the handle is nil;
otherwise calls `OGR_F_Destroy` unconditionally and nils the handle. -/
def Feature.Close (f : Feature) : Feature × List NativeCall :=
  match f.handle with
  | none => (f, [])
  | some h => ({ handle := none }, [NativeCall.destroyFeature h])

/-- `func (g *Geometry) SubGeometry(subGeomIndex int, ...)`: wraps
`godal_OGR_G_GetGeometryRef` run under a cgo error context.  `hndl` is the
handle the native call returns and `cgcErr` the error produced by closing the
context; both are inputs of the native layer.  On success the result is
wrapped with `isOwned: false`. -/
def Geometry.SubGeometry (g : Geometry) (subGeomIndex : Int)
    (hndl : Option Nat) (cgcErr : Option String) : GoResult Geometry :=
  match cgcErr with
  | some e => .goErr e
  | none => .ok { isOwned := false, handle := hndl }

/-- `func (f *Feature) Geometry() *Geometry`: wraps `OGR_F_GetGeometryRef`;
`hndl` is the handle that native call returns for `f.handle`.  The result is
always wrapped with `isOwned: false`. -/
def Feature.GeometryRef (f : Feature) (hndl : Option Nat) : Geometry :=
  { isOwned := false, handle := hndl }

/-- C1: closing a `Geometry` or a `Feature` is idempotent and harmless —
after any `Close` the local handle is nil, and a second `Close` returns the
receiver unchanged without emitting any native destroy call.  `Close` is a
total function in this model, mirroring that the Go methods have no error
return and contain no reachable panic. -/
theorem c1_close_idempotent (g : Geometry) (f : Feature) :
    (Geometry.Close g).1.handle = none ∧
    Geometry.Close (Geometry.Close g).1 = ((Geometry.Close g).1, []) ∧
    (Feature.Close f).1.handle = none ∧
    Feature.Close (Feature.Close f).1 = ((Feature.Close f).1, []) := by
  obtain ⟨go, gh⟩ := g
  obtain ⟨fh⟩ := f
  cases gh <;> cases fh <;> simp [Geometry.Close, Feature.Close]

/-- C2: `Feature.Geometry` and (on success) `Geometry.SubGeometry` return
geometries tagged not-owned, and closing a not-owned geometry emits no native
destroy call, so the set of live native handles — in particular the parent's —
is unchanged by the close. -/
theorem c2_borrowed_close_no_destroy :
    (∀ (f : Feature) (hndl : Option Nat),
        (Feature.GeometryRef f hndl).isOwned = false) ∧
    (∀ (g : Geometry) (i : Int) (hndl : Option Nat) (cgcErr : Option String)
        (sub : Geometry),
        Geometry.SubGeometry g i hndl cgcErr = .ok sub → sub.isOwned = false) ∧
    (∀ g : Geometry, g.isOwned = false →
        (Geometry.Close g).2 = [] ∧
        ∀ live : List Nat, applyNativeCalls live (Geometry.Close g).2 = live) := by
  refine ⟨fun f hndl => rfl, ?_, ?_⟩
  · intro g i hndl cgcErr sub hok
    cases cgcErr with
    | some e => simp [Geometry.SubGeometry] at hok
    | none =>
      simp only [Geometry.SubGeometry, GoResult.ok.injEq] at hok
      rw [← hok]
  · intro g hnotowned
    obtain ⟨go, gh⟩ := g
    simp only at hnotowned
    subst hnotowned
    cases gh <;> simp [Geometry.Close, applyNativeCalls]

/-- Witness for C2: a multipolygon's sub-geometry retrieved at index 0 is
borrowed, closing it destroys nothing, and a live-handle set containing the
parent is untouched. -/
theorem c2_witness :
    (Feature.GeometryRef { handle := some 3 } (some 9)).isOwned = false ∧
    (Geometry.SubGeometry { isOwned := true, handle := some 5 } 0 (some 7) none
      = .ok { isOwned := false, handle := some 7 }) ∧
    ((Geometry.Close { isOwned := false, handle := some 7 }).2 = [] ∧
      ∀ live : List Nat,
        applyNativeCalls live
          (Geometry.Close { isOwned := false, handle := some 7 }).2 = live) :=
  ⟨c2_borrowed_close_no_destroy.1 { handle := some 3 } (some 9),
   by decide,
   c2_borrowed_close_no_destroy.2.2 { isOwned := false, handle := some 7 } rfl⟩

/-- Behaviour of a wrapper accessor: either it fails locally before touching
the native library (`localError`), or it invokes one native function with the
listed handle arguments (`native`) and returns that call's result unchanged.
None of the six accessors modelled below has a local-error path in the
source. -/
inductive AccessorResult where
  | localError (msg : String)
  | native (fn : String) (args : List (Option Nat))
deriving DecidableEq

/-- Is the result an error produced locally by the wrapper? -/
def AccessorResult.isLocalError : AccessorResult → Bool
  | .localError _ => true
  | .native _ _ => false

/-- `func (g *Geometry) Area() float64`: the body is the single expression
`float64(C.OGR_G_Area(g.handle))` — no nil check, no error return.  The model
records the native invocation the method performs; the Go return value is
that call's result unchanged. -/
def Geometry.Area (g : Geometry) : AccessorResult :=
  .native "OGR_G_Area" [g.handle]

/-- `func (g *Geometry) GeometryCount() int`: body is
`int(C.OGR_G_GetGeometryCount(g.handle))` — no nil check, no error return. -/
def Geometry.GeometryCount (g : Geometry) : AccessorResult :=
  .native "OGR_G_GetGeometryCount" [g.handle]

/-- `func (g *Geometry) Type() GeometryType`: body is
`GeometryType(C.OGR_G_GetGeometryType(g.handle))` — no nil check, no error
return.  (Named `TypeOf` here because `Type` is reserved in Lean.) -/
def Geometry.TypeOf (g : Geometry) : AccessorResult :=
  .native "OGR_G_GetGeometryType" [g.handle]

/-- `func (g *Geometry) Contains(other *Geometry) bool`: body is
`C.OGR_G_Contains(g.handle, other.handle) != 0` — no nil check, no error
return. -/
def Geometry.Contains (g other : Geometry) : AccessorResult :=
  .native "OGR_G_Contains" [g.handle, other.handle]

/-- `func (g *Geometry) Empty() bool`: body is
`C.OGR_G_IsEmpty(g.handle) != 0` — no nil check, no error return. -/
def Geometry.Empty (g : Geometry) : AccessorResult :=
  .native "OGR_G_IsEmpty" [g.handle]

/-- `func (g *Geometry) Valid() bool`: body is
`C.OGR_G_IsValid(g.handle) != 0` — no nil check, no error return. -/
def Geometry.Valid (g : Geometry) : AccessorResult :=
  .native "OGR_G_IsValid" [g.handle]

/-- Counterexample to C3: `Geometry.Area` on the zero-valued geometry (nil
handle) does not return a descriptive error — it has no error return at all
and no local nil check; it forwards the nil handle straight to the native
`OGR_G_Area`. -/
theorem c3_counterexample :
    Geometry.Area { isOwned := false, handle := none }
      = .native "OGR_G_Area" [none] ∧
    (Geometry.Area { isOwned := false, handle := none }).isLocalError = false :=
  ⟨rfl, rfl⟩

/-- C3 (amended): the six Geometry accessors without an error return (`Area`,
`GeometryCount`, `Type`, `Contains`, `Empty`, `Valid`) perform no local
null-handle check and produce no local error: each one unconditionally passes
its (possibly nil) handle to the corresponding native function and returns the
native result.  Whether the process survives a nil handle is decided by the
native library, not by this wrapper. -/
theorem c3_null_handle_accessors (g other : Geometry) :
    Geometry.Area g = .native "OGR_G_Area" [g.handle] ∧
    Geometry.GeometryCount g = .native "OGR_G_GetGeometryCount" [g.handle] ∧
    Geometry.TypeOf g = .native "OGR_G_GetGeometryType" [g.handle] ∧
    Geometry.Contains g other = .native "OGR_G_Contains" [g.handle, other.handle] ∧
    Geometry.Empty g = .native "OGR_G_IsEmpty" [g.handle] ∧
    Geometry.Valid g = .native "OGR_G_IsValid" [g.handle] ∧
    (Geometry.Area g).isLocalError = false ∧
    (Geometry.GeometryCount g).isLocalError = false ∧
    (Geometry.TypeOf g).isLocalError = false ∧
    (Geometry.Contains g other).isLocalError = false ∧
    (Geometry.Empty g).isLocalError = false ∧
    (Geometry.Valid g).isLocalError = false :=
  ⟨rfl, rfl, rfl, rfl, rfl, rfl, rfl, rfl, rfl, rfl, rfl, rfl⟩

/-- The slice of `*Dataset` that `RasterizeGeometry` consults: only the number
of raster bands (`len(ds.Bands())`) feeds the modelled logic. -/
structure Dataset where
  bandCount : Nat
deriving DecidableEq

/-- Outcome of `Dataset.RasterizeGeometry`: either a local argument error
returned before any native call, or the native `godalRasterizeGeometry`
invocation with the final band list, burn values and allTouched flag. -/
inductive RasterizeOutcome where
  | localError (msg : String)
  | nativeCall (geom : Option Nat) (bands : List Int) (values : List Float64)
      (allTouched : Bool)
deriving DecidableEq

/-- Band defaulting of `Dataset.RasterizeGeometry`: an empty band list is
replaced by all dataset bands `1..bandCount`. -/
def rasterizeDefaultBands (ds : Dataset) (bands : List Int) : List Int :=
  if bands.length = 0 then (List.range ds.bandCount).map (fun i => (i : Int) + 1)
  else bands

/-- Value defaulting of `Dataset.RasterizeGeometry`: an empty value list
becomes one zero per band; a single value is then replicated across all bands
by appending `len(bands) - 1` copies of it (the Go loop
`for i := 1; i < len(opt.bands); i++`). -/
def rasterizeDefaultValues (bands : List Int) (values : List Float64) :
    List Float64 :=
  let values := if values.length = 0 then List.replicate bands.length 0 else values
  if values.length = 1 ∧ values.length ≠ bands.length then
    values ++ List.replicate (bands.length - 1) (values.headD 0)
  else values

/-- `func (ds *Dataset) RasterizeGeometry(g *Geometry, opts...)` after option
processing has produced the band list `bands0`, burn values `values0` and the
`allTouched` flag: defaults are applied, then the final arity check
`len(opt.values) != len(opt.bands)` returns a local error before the native
`godalRasterizeGeometry` call. -/
def Dataset.RasterizeGeometry (ds : Dataset) (g : Geometry) (bands0 : List Int)
    (values0 : List Float64) (allTouched : Bool) : RasterizeOutcome :=
  let bands := rasterizeDefaultBands ds bands0
  let values := rasterizeDefaultValues bands values0
  if values.length ≠ bands.length then
    .localError "must pass in same number of values as bands"
  else .nativeCall g.handle bands values allTouched

/-- C7: whenever the defaulted burn-value count differs from the defaulted
band count, `Dataset.RasterizeGeometry` returns the arity error locally — the
outcome is `localError`, not a native `godalRasterizeGeometry` call. -/
theorem c7_burn_value_arity_precheck (ds : Dataset) (g : Geometry)
    (bands0 : List Int) (values0 : List Float64) (allTouched : Bool)
    (hmismatch :
      (rasterizeDefaultValues (rasterizeDefaultBands ds bands0) values0).length
        ≠ (rasterizeDefaultBands ds bands0).length) :
    Dataset.RasterizeGeometry ds g bands0 values0 allTouched
      = .localError "must pass in same number of values as bands" := by
  simp [Dataset.RasterizeGeometry, hmismatch]

/-- Witness for C7: a 3-band dataset with default bands and only two burn
values fails the precheck. -/
theorem c7_witness :
    Dataset.RasterizeGeometry { bandCount := 3 }
        { isOwned := true, handle := some 4 } [] [10, 20] false
      = .localError "must pass in same number of values as bands" :=
  c7_burn_value_arity_precheck { bandCount := 3 }
    { isOwned := true, handle := some 4 } [] [10, 20] false (by decide)

/-- godal `FieldType` (the OGR `OFT*` constants used by `vector.go`).
`FTUnknown` stands for every declared native type that `Feature.Fields` does
not handle explicitly (only deprecated types such as wide strings reach that
default branch). -/
inductive FieldType where
  | FTInt
  | FTInt64
  | FTReal
  | FTString
  | FTDate
  | FTTime
  | FTDateTime
  | FTBinary
  | FTIntList
  | FTInt64List
  | FTRealList
  | FTStringList
  | FTUnknown
deriving DecidableEq

/-- Go time zone of a `time.Time` value: `utc` is `time.UTC`, `fixedZone`
stands for any other location (offset in seconds). -/
inductive GoLoc where
  | utc
  | fixedZone (offsetSeconds : Int)
deriving DecidableEq

/-- Go `time.Time`, in the broken-down form the modelled code reads and
writes: the calendar/clock components as reported by `Year()` ... `Second()`
in the value's own location, the sub-second part (`Nanosecond()`), and the
location. -/
structure GoTime where
  year : Int
  month : Int
  day : Int
  hour : Int
  minute : Int
  second : Int
  nsec : Int
  loc : GoLoc
deriving DecidableEq

/-- Go `time.Date(year, month, day, hour, min, sec, nsec, loc)` for arguments
already in their canonical ranges — the only way it is called in `vector.go`
(the arguments come from `OGR_F_GetFieldAsDateTime` out-parameters that were
themselves written from `time.Time` accessors).  Calendar normalisation of
out-of-range arguments is therefore not modelled. -/
def timeDate (year month day hour minute second nsec : Int) (loc : GoLoc) :
    GoTime :=
  { year := year, month := month, day := day, hour := hour, minute := minute,
    second := second, nsec := nsec, loc := loc }

/-- The zero `time.Time{}`: January 1, year 1, 00:00:00 UTC. -/
def zeroGoTime : GoTime := timeDate 1 1 1 0 0 0 0 GoLoc.utc

/-- The ten concrete Go types admitted by the `FieldValueType` generic
constraint (`int | int64 | float64 | string | []byte | time.Time | []int |
[]int64 | []float64 | []string`). -/
inductive FVType where
  | fvInt
  | fvInt64
  | fvReal
  | fvString
  | fvBinary
  | fvTime
  | fvIntList
  | fvInt64List
  | fvRealList
  | fvStringList
deriving DecidableEq

/-- A Go `any` value as held in `Field.val`: one constructor per dynamic type
that the package ever stores there, plus `vNil` for the nil interface (the
value of `Field.val` when no assignment was executed, e.g. for `FTUnknown`
fields).  A nil Go slice and an empty slice are both carried as the empty
list: the modelled code never distinguishes them for payloads. -/
inductive GoVal where
  | vInt (i : Int)
  | vInt64 (i : Int)
  | vReal (r : Float64)
  | vString (s : String)
  | vTime (t : GoTime)
  | vBinary (bs : List UInt8)
  | vIntList (xs : List Int)
  | vInt64List (xs : List Int)
  | vRealList (xs : List Float64)
  | vStringList (xs : List String)
  | vNil
deriving DecidableEq

/-- Dynamic type of a stored `any` value; `none` for the nil interface.  A Go
type assertion `v.(T)` succeeds exactly when `typeOf v = some T`. -/
def GoVal.typeOf : GoVal → Option FVType
  | .vInt _ => some .fvInt
  | .vInt64 _ => some .fvInt64
  | .vReal _ => some .fvReal
  | .vString _ => some .fvString
  | .vTime _ => some .fvTime
  | .vBinary _ => some .fvBinary
  | .vIntList _ => some .fvIntList
  | .vInt64List _ => some .fvInt64List
  | .vRealList _ => some .fvRealList
  | .vStringList _ => some .fvStringList
  | .vNil => none

/-- The dynamic type that `Feature.Fields` stores in `Field.val` for each
field kind, i.e. the kind/type correspondence realised by the snapshot code:
`FTInt` → `int`, `FTInt64` → `int64`, the three temporal kinds → `time.Time`,
and so on; `none` for `FTUnknown`, whose snapshot value stays nil. -/
def FieldType.valType : FieldType → Option FVType
  | .FTInt => some .fvInt
  | .FTInt64 => some .fvInt64
  | .FTReal => some .fvReal
  | .FTString => some .fvString
  | .FTDate => some .fvTime
  | .FTTime => some .fvTime
  | .FTDateTime => some .fvTime
  | .FTBinary => some .fvBinary
  | .FTIntList => some .fvIntList
  | .FTInt64List => some .fvInt64List
  | .FTRealList => some .fvRealList
  | .FTStringList => some .fvStringList
  | .FTUnknown => none

/-- Payload stored in one native field slot, written by the `OGR_F_SetField*`
entry points and decoded by the `OGR_F_GetFieldAs*` entry points. -/
inductive NativePayload where
  | pInt (i : Int)
  | pInt64 (i : Int)
  | pReal (r : Float64)
  | pString (s : String)
  | pDateTime (year month day hour minute second tzFlag : Int)
  | pIntList (xs : List Int)
  | pInt64List (xs : List Int)
  | pRealList (xs : List Float64)
  | pStringList (xs : List String)
  | pBinary (bs : List UInt8)
deriving DecidableEq

/-- One attribute slot of a native OGR feature: its schema entry (name and
declared field type) and its current data (`none` when the field was never
set, so that `OGR_F_IsFieldSet` reports false). -/
structure NativeSlot where
  name : String
  declType : FieldType
  data : Option NativePayload
deriving DecidableEq

/-- The native OGR feature behind one feature handle: its ordered attribute
slots, as declared by the layer schema. -/
structure NativeFeature where
  slots : List NativeSlot
deriving DecidableEq

/-- The native feature store: an association of feature handles to native
features.  This models the part of the GDAL heap the field accessors touch. -/
abbrev NativeWorld := List (Nat × NativeFeature)

/-- Look up the native feature behind a handle. -/
def findFeat : NativeWorld → Nat → Option NativeFeature
  | [], _ => none
  | (k, nf) :: rest, n => if k = n then some nf else findFeat rest n

/-- Replace the data of slot `idx`, keeping its schema entry; out-of-range
indices leave the slot list unchanged. -/
def setSlotData : List NativeSlot → Nat → NativePayload → List NativeSlot
  | [], _, _ => []
  | s :: rest, 0, p => { s with data := some p } :: rest
  | s :: rest, Nat.succ n, p => s :: setSlotData rest n p

/-- Native `OGR_F_SetField*`: store payload `p` into slot `idx` of the feature
behind handle `n`. -/
def NativeWorld.setField (w : NativeWorld) (n : Nat) (idx : Nat)
    (p : NativePayload) : NativeWorld :=
  match w with
  | [] => []
  | (k, nf) :: rest =>
    if k = n then (k, { slots := setSlotData nf.slots idx p }) :: rest
    else (k, nf) :: NativeWorld.setField rest n idx p

/-- Slot `idx` of the feature behind handle `h`; `none` for the nil handle, an
unknown handle or an out-of-range index. -/
def NativeWorld.slotAt (w : NativeWorld) (h : Option Nat) (idx : Nat) :
    Option NativeSlot :=
  match h with
  | none => none
  | some n =>
    match findFeat w n with
    | some nf => nf.slots[idx]?
    | none => none

/-- Native `OGR_F_GetFieldCount`. -/
def NativeWorld.fieldCount (w : NativeWorld) (h : Option Nat) : Nat :=
  match h with
  | none => 0
  | some n =>
    match findFeat w n with
    | some nf => nf.slots.length
    | none => 0

/-- Native `OGR_F_IsFieldSet`: true exactly when the slot exists and holds
data. -/
def NativeWorld.isFieldSet (w : NativeWorld) (h : Option Nat) (idx : Nat) :
    Bool :=
  match NativeWorld.slotAt w h idx with
  | some s => s.data.isSome
  | none => false

/-- Native `OGR_Fld_GetNameRef` of slot `idx`'s definition. -/
def NativeWorld.fieldName (w : NativeWorld) (h : Option Nat) (idx : Nat) :
    String :=
  match NativeWorld.slotAt w h idx with
  | some s => s.name
  | none => ""

/-- Native `OGR_Fld_GetType` of slot `idx`'s definition. -/
def NativeWorld.fieldDeclType (w : NativeWorld) (h : Option Nat) (idx : Nat) :
    FieldType :=
  match NativeWorld.slotAt w h idx with
  | some s => s.declType
  | none => .FTUnknown

/-- Native `OGR_F_GetFieldAsInteger64`: the stored integer for an integer
payload, 0 otherwise (unset slot, other payload). -/
def NativeWorld.getAsInteger64 (w : NativeWorld) (h : Option Nat) (idx : Nat) :
    Int :=
  match NativeWorld.slotAt w h idx with
  | some s =>
    match s.data with
    | some (.pInt i) => i
    | some (.pInt64 i) => i
    | _ => 0
  | none => 0

/-- Native `OGR_F_GetFieldAsDouble`. -/
def NativeWorld.getAsDouble (w : NativeWorld) (h : Option Nat) (idx : Nat) :
    Float64 :=
  match NativeWorld.slotAt w h idx with
  | some s =>
    match s.data with
    | some (.pReal r) => r
    | _ => 0
  | none => 0

/-- Native `OGR_F_GetFieldAsString`. -/
def NativeWorld.getAsString (w : NativeWorld) (h : Option Nat) (idx : Nat) :
    String :=
  match NativeWorld.slotAt w h idx with
  | some s =>
    match s.data with
    | some (.pString str) => str
    | _ => ""
  | none => ""

/-- Native `OGR_F_GetFieldAsDateTime`: succeeds (non-zero return) exactly when
the slot holds a datetime payload, filling the out-parameters with its
components. -/
def NativeWorld.getAsDateTime (w : NativeWorld) (h : Option Nat) (idx : Nat) :
    Option (Int × Int × Int × Int × Int × Int × Int) :=
  match NativeWorld.slotAt w h idx with
  | some s =>
    match s.data with
    | some (.pDateTime y mo d hr mi sec tz) => some (y, mo, d, hr, mi, sec, tz)
    | _ => none
  | none => none

/-- Native `OGR_F_GetFieldAsIntegerList`; a null array pointer becomes the
nil slice, carried as the empty list. -/
def NativeWorld.getAsIntegerList (w : NativeWorld) (h : Option Nat)
    (idx : Nat) : List Int :=
  match NativeWorld.slotAt w h idx with
  | some s =>
    match s.data with
    | some (.pIntList xs) => xs
    | _ => []
  | none => []

/-- Native `OGR_F_GetFieldAsInteger64List`. -/
def NativeWorld.getAsInteger64List (w : NativeWorld) (h : Option Nat)
    (idx : Nat) : List Int :=
  match NativeWorld.slotAt w h idx with
  | some s =>
    match s.data with
    | some (.pInt64List xs) => xs
    | _ => []
  | none => []

/-- Native `OGR_F_GetFieldAsDoubleList`. -/
def NativeWorld.getAsDoubleList (w : NativeWorld) (h : Option Nat)
    (idx : Nat) : List Float64 :=
  match NativeWorld.slotAt w h idx with
  | some s =>
    match s.data with
    | some (.pRealList xs) => xs
    | _ => []
  | none => []

/-- Native `OGR_F_GetFieldAsStringList`. -/
def NativeWorld.getAsStringList (w : NativeWorld) (h : Option Nat)
    (idx : Nat) : List String :=
  match NativeWorld.slotAt w h idx with
  | some s =>
    match s.data with
    | some (.pStringList xs) => xs
    | _ => []
  | none => []

/-- Native `OGR_F_GetFieldAsBinary`; a null array pointer leaves the Go slice
nil, carried as the empty list. -/
def NativeWorld.getAsBinary (w : NativeWorld) (h : Option Nat) (idx : Nat) :
    List UInt8 :=
  match NativeWorld.slotAt w h idx with
  | some s =>
    match s.data with
    | some (.pBinary bs) => bs
    | _ => []
  | none => []

/-- `type Field struct { index int; name string; isSet bool; ftype FieldType;
val any }` — one entry of a feature's field snapshot. -/
structure Field where
  index : Nat
  name : String
  isSet : Bool
  ftype : FieldType
  val : GoVal
deriving DecidableEq

/-- `func (f *Feature) getFieldAsDateTime(index C.int) time.Time`: on a
successful native read it builds `time.Date(year, month, day, hour, minute,
second, 0, time.UTC)`, discarding the native `tzFlag` out-parameter and the
sub-second part (the source marks this `TODO Time zone is not properly
handled`); on failure it returns the zero `time.Time{}`. -/
def Feature.getFieldAsDateTime (f : Feature) (w : NativeWorld) (index : Nat) :
    GoTime :=
  match NativeWorld.getAsDateTime w f.handle index with
  | some (y, mo, d, hr, mi, sec, _tz) => timeDate y mo d hr mi sec 0 GoLoc.utc
  | none => zeroGoTime

/-- Loop body of `Feature.Fields` for field id `fid`: reads the slot's
definition (name, declared type) and `isSet`, then decodes `val` with the
getter selected by the declared type; unhandled (deprecated) declared types
take the default branch, which sets `ftype = FTUnknown` and leaves `val` as
the nil interface. -/
def Feature.fieldsEntry (f : Feature) (w : NativeWorld) (fid : Nat) : Field :=
  let name := NativeWorld.fieldName w f.handle fid
  let isSet := NativeWorld.isFieldSet w f.handle fid
  match NativeWorld.fieldDeclType w f.handle fid with
  | .FTInt =>
    { index := fid, name := name, isSet := isSet, ftype := .FTInt,
      val := .vInt (NativeWorld.getAsInteger64 w f.handle fid) }
  | .FTInt64 =>
    { index := fid, name := name, isSet := isSet, ftype := .FTInt64,
      val := .vInt64 (NativeWorld.getAsInteger64 w f.handle fid) }
  | .FTReal =>
    { index := fid, name := name, isSet := isSet, ftype := .FTReal,
      val := .vReal (NativeWorld.getAsDouble w f.handle fid) }
  | .FTString =>
    { index := fid, name := name, isSet := isSet, ftype := .FTString,
      val := .vString (NativeWorld.getAsString w f.handle fid) }
  | .FTDate =>
    { index := fid, name := name, isSet := isSet, ftype := .FTDate,
      val := .vTime (Feature.getFieldAsDateTime f w fid) }
  | .FTTime =>
    { index := fid, name := name, isSet := isSet, ftype := .FTTime,
      val := .vTime (Feature.getFieldAsDateTime f w fid) }
  | .FTDateTime =>
    { index := fid, name := name, isSet := isSet, ftype := .FTDateTime,
      val := .vTime (Feature.getFieldAsDateTime f w fid) }
  | .FTIntList =>
    { index := fid, name := name, isSet := isSet, ftype := .FTIntList,
      val := .vIntList (NativeWorld.getAsIntegerList w f.handle fid) }
  | .FTInt64List =>
    { index := fid, name := name, isSet := isSet, ftype := .FTInt64List,
      val := .vInt64List (NativeWorld.getAsInteger64List w f.handle fid) }
  | .FTRealList =>
    { index := fid, name := name, isSet := isSet, ftype := .FTRealList,
      val := .vRealList (NativeWorld.getAsDoubleList w f.handle fid) }
  | .FTStringList =>
    { index := fid, name := name, isSet := isSet, ftype := .FTStringList,
      val := .vStringList (NativeWorld.getAsStringList w f.handle fid) }
  | .FTBinary =>
    { index := fid, name := name, isSet := isSet, ftype := .FTBinary,
      val := .vBinary (NativeWorld.getAsBinary w f.handle fid) }
  | .FTUnknown =>
    { index := fid, name := name, isSet := isSet, ftype := .FTUnknown,
      val := .vNil }

/-- `func (f *Feature) Fields() Fields`: reads `OGR_F_GetFieldCount` and, when
it is zero, returns the nil slice (`return nil` in the source — modelled as
`none`); otherwise builds one `Field` per id `0 ≤ fid < fcount` (a non-nil
slice, modelled as `some`). -/
def Feature.Fields (f : Feature) (w : NativeWorld) : Option (List Field) :=
  let fcount := NativeWorld.fieldCount w f.handle
  if fcount = 0 then none
  else some ((List.range fcount).map (fun fid => Feature.fieldsEntry f w fid))

/-- `type FieldValueQuerier[FVT FieldValueType] struct { srcFeature *Feature }`.
The generic parameter only fixes the concrete type used by `GetValue`'s type
assertion, so it appears as the explicit `FVType` argument of the accessors
rather than in the structure. -/
structure FieldValueQuerier where
  srcFeature : Option Feature
deriving DecidableEq

/-- `func NewFieldValueQuerier[FVT](srcFeature *Feature)` -/
def NewFieldValueQuerier (srcFeature : Option Feature) : FieldValueQuerier :=
  { srcFeature := srcFeature }

/-- `func (fvq *FieldValueQuerier[FVT]) GetValue(field *Field) (FVT, error)`:
a Go type assertion `field.val.(FVT)` — succeeds with the cached value exactly
when the dynamic type of `field.val` is `T`, otherwise returns the dedicated
error.  The querier receiver and the native feature are never consulted. -/
def FieldValueQuerier.GetValue (fvq : FieldValueQuerier) (T : FVType)
    (field : Field) : GoResult GoVal :=
  if field.val.typeOf = some T then .ok field.val
  else .goErr "requested type is not suitable for this type of field"

/-- Shared tail of every successful `SetValue` branch (source lines following
the native write): `field.isSet = OGR_F_IsFieldSet(...) != 0;
field.val = value; return nil`.  The Go method mutates `*field` and the
native feature; the model returns the updated field and world. -/
def setValueFinish (h : Nat) (field : Field) (p : NativePayload)
    (w : NativeWorld) (value : GoVal) : GoResult (Field × NativeWorld) :=
  let w2 := NativeWorld.setField w h field.index p
  let field2 :=
    { field with
        isSet := NativeWorld.isFieldSet w2 (some h) field.index
        val := value }
  .ok (field2, w2)

/-- `func (fvq *FieldValueQuerier[FV]) SetValue(field *Field, value FV) error`:
checks the querier's bound feature (nil pointer, then nil handle), then
switches on `field.ftype`, type-asserting `value` against the kind's concrete
Go type and performing the kind's native write.  Empty-slice inputs panic in
four branches before the native call: the `FTBinary` branch passes
`unsafe.Pointer(&bytesValue[0])` directly, and the `FTIntList`, `FTInt64List`
and `FTRealList` branches marshal through `cIntArray` / `cLongArray` /
`cDoubleArray`, which allocate `make(..., len(in))` and return `&ret[0]` —
a runtime panic on an empty slice.  `cLongArray` is in `vector.go` (lines
1174-1180); `cIntArray` and `cDoubleArray` are defined elsewhere in the
repository and are modelled on the same marshalling pattern as their sibling
`cLongArray`.  The `FTStringList` branch marshals through
`sliceToCStringArray`, which builds a NULL-terminated array of length
`len(in)+1` and so cannot hit the empty-slice defect.  The `FTStringList`
wrong-type message really says `'[]float64'` in the source.  Unknown kinds
are rejected. -/
def FieldValueQuerier.SetValue (fvq : FieldValueQuerier) (w : NativeWorld)
    (field : Field) (value : GoVal) : GoResult (Field × NativeWorld) :=
  match fvq.srcFeature with
  | none => .goErr "source feature is nil"
  | some f =>
    match f.handle with
    | none => .goErr "invalid source feature, probably closed"
    | some h =>
      match field.ftype, value with
      | .FTInt, .vInt i => setValueFinish h field (.pInt i) w value
      | .FTInt, _ => .goErr "value for this field must be of type 'int'"
      | .FTInt64, .vInt64 i => setValueFinish h field (.pInt64 i) w value
      | .FTInt64, _ => .goErr "value for this field must be of type 'int64'"
      | .FTReal, .vReal r => setValueFinish h field (.pReal r) w value
      | .FTReal, _ => .goErr "value for this field must be of type 'float64'"
      | .FTString, .vString s => setValueFinish h field (.pString s) w value
      | .FTString, _ => .goErr "value for this field must be of type 'string'"
      | .FTDate, .vTime t =>
        setValueFinish h field
          (.pDateTime t.year t.month t.day t.hour t.minute t.second 1) w value
      | .FTDate, _ => .goErr "value for this field must be of type 'time.Time'"
      | .FTTime, .vTime t =>
        setValueFinish h field
          (.pDateTime t.year t.month t.day t.hour t.minute t.second 1) w value
      | .FTTime, _ => .goErr "value for this field must be of type 'time.Time'"
      | .FTDateTime, .vTime t =>
        setValueFinish h field
          (.pDateTime t.year t.month t.day t.hour t.minute t.second 1) w value
      | .FTDateTime, _ =>
        .goErr "value for this field must be of type 'time.Time'"
      | .FTIntList, .vIntList xs =>
        if xs.isEmpty then
          .panicked "runtime error: index out of range [0] with length 0"
        else setValueFinish h field (.pIntList xs) w value
      | .FTIntList, _ => .goErr "value for this field must be of type '[]int'"
      | .FTInt64List, .vInt64List xs =>
        if xs.isEmpty then
          .panicked "runtime error: index out of range [0] with length 0"
        else setValueFinish h field (.pInt64List xs) w value
      | .FTInt64List, _ =>
        .goErr "value for this field must be of type '[]int64'"
      | .FTRealList, .vRealList xs =>
        if xs.isEmpty then
          .panicked "runtime error: index out of range [0] with length 0"
        else setValueFinish h field (.pRealList xs) w value
      | .FTRealList, _ =>
        .goErr "value for this field must be of type '[]float64'"
      | .FTStringList, .vStringList xs =>
        setValueFinish h field (.pStringList xs) w value
      | .FTStringList, _ =>
        .goErr "value for this field must be of type '[]float64'"
      | .FTBinary, .vBinary bs =>
        if bs.isEmpty then
          .panicked "runtime error: index out of range [0] with length 0"
        else setValueFinish h field (.pBinary bs) w value
      | .FTBinary, _ => .goErr "value for this field must be of type '[]byte'"
      | .FTUnknown, _ =>
        .goErr "setting value is not implemented for this type of field"

/-- `func NewGeometryFromWKB(wkb []byte, sr *SpatialRef, opts...)`: the call
expression takes `unsafe.Pointer(&wkb[0])`, which panics when `wkb` is empty —
before the native `godalNewGeometryFromWKB` call.  Otherwise `hndl` and
`cgcErr` model the native call's result under the error context; success
yields an owned geometry. -/
def NewGeometryFromWKB (wkb : List UInt8) (sr : Option SpatialRef)
    (hndl : Option Nat) (cgcErr : Option String) : GoResult Geometry :=
  if wkb.isEmpty then
    .panicked "runtime error: index out of range [0] with length 0"
  else
    match cgcErr with
    | some e => .goErr e
    | none => .ok { isOwned := true, handle := hndl }

/-- Storing into a slot keeps the slot list's length. -/
theorem setSlotData_length (ss : List NativeSlot) (idx : Nat)
    (p : NativePayload) : (setSlotData ss idx p).length = ss.length := by
  induction ss generalizing idx with
  | nil => rfl
  | cons s rest ih => cases idx <;> simp [setSlotData, ih]

/-- Reading back the slot just stored into: the schema entry is kept and the
data is the new payload. -/
theorem setSlotData_get_self (ss : List NativeSlot) (idx : Nat)
    (p : NativePayload) :
    (setSlotData ss idx p)[idx]?
      = (ss[idx]?).map (fun s => { s with data := some p }) := by
  induction ss generalizing idx with
  | nil => cases idx <;> rfl
  | cons s rest ih =>
    cases idx with
    | zero => simp [setSlotData]
    | succ n => simpa [setSlotData] using ih n

/-- `setField` updates exactly the addressed feature's slot list. -/
theorem findFeat_setField (w : NativeWorld) (n idx : Nat) (p : NativePayload) :
    findFeat (NativeWorld.setField w n idx p) n
      = (findFeat w n).map
          (fun nf => { slots := setSlotData nf.slots idx p }) := by
  induction w with
  | nil => rfl
  | cons e rest ih =>
    obtain ⟨k, nf⟩ := e
    by_cases hk : k = n
    · subst hk; simp [NativeWorld.setField, findFeat]
    · simp [NativeWorld.setField, findFeat, hk, ih]

/-- Slot view after a native field write at the same handle and index. -/
theorem slotAt_setField_self (w : NativeWorld) (n idx : Nat)
    (p : NativePayload) :
    NativeWorld.slotAt (NativeWorld.setField w n idx p) (some n) idx
      = (NativeWorld.slotAt w (some n) idx).map
          (fun s => { s with data := some p }) := by
  simp only [NativeWorld.slotAt, findFeat_setField]
  cases findFeat w n with
  | none => rfl
  | some nf => simp [setSlotData_get_self]

/-- A native field write does not change the feature's field count. -/
theorem fieldCount_setField (w : NativeWorld) (n idx : Nat)
    (p : NativePayload) :
    NativeWorld.fieldCount (NativeWorld.setField w n idx p) (some n)
      = NativeWorld.fieldCount w (some n) := by
  simp only [NativeWorld.fieldCount, findFeat_setField]
  cases findFeat w n <;> simp [setSlotData_length]

/-- After a native field write to an existing slot, `OGR_F_IsFieldSet`
reports true. -/
theorem isFieldSet_setField_self (w : NativeWorld) (n idx : Nat)
    (hslot : (NativeWorld.slotAt w (some n) idx).isSome = true)
    (p : NativePayload) :
    NativeWorld.isFieldSet (NativeWorld.setField w n idx p) (some n) idx
      = true := by
  simp only [NativeWorld.isFieldSet, slotAt_setField_self]
  cases h : NativeWorld.slotAt w (some n) idx with
  | none => rw [h] at hslot; simp at hslot
  | some s => simp

/-- On an existing slot, the shared tail of `SetValue` returns the field with
`isSet = true` and the written value cached, together with the updated native
store. -/
theorem setValueFinish_ok (h : Nat) (field : Field) (p : NativePayload)
    (w : NativeWorld) (value : GoVal)
    (hslot : (NativeWorld.slotAt w (some h) field.index).isSome = true) :
    setValueFinish h field p w value
      = .ok ({ field with isSet := true, val := value },
             NativeWorld.setField w h field.index p) := by
  simp [setValueFinish, isFieldSet_setField_self w h field.index hslot p]

/-- Well-formedness of every snapshot entry: the dynamic type of the decoded
value is exactly the one `FieldType.valType` associates with the entry's
kind (for `FTUnknown` both sides are `none`/nil). -/
theorem fieldsEntry_val_typeOf (f : Feature) (w : NativeWorld) (fid : Nat) :
    (Feature.fieldsEntry f w fid).val.typeOf
      = (Feature.fieldsEntry f w fid).ftype.valType := by
  cases h : NativeWorld.fieldDeclType w f.handle fid <;>
    simp [Feature.fieldsEntry, h, GoVal.typeOf, FieldType.valType]

/-- Counterexample to C4: on a feature over a zero-field schema,
`Feature.Fields` returns the nil slice (`none` in the model), not a non-nil
empty sequence (`some []`). -/
theorem c4_counterexample :
    Feature.Fields { handle := some 1 } [(1, { slots := [] })] = none ∧
    Feature.Fields { handle := some 1 } [(1, { slots := [] })]
      ≠ some ([] : List Field) := by
  constructor
  · rfl
  · intro hcontra
    simp [Feature.Fields, NativeWorld.fieldCount, findFeat] at hcontra

/-- C4 (amended): requesting the field snapshot of a feature whose schema
declares zero attribute fields returns the nil slice — a sequence of length
zero and no error (the method has no error return), but the Go nil slice
rather than a non-nil empty one: the source is `if fcount == 0 { return
nil }`. -/
theorem c4_empty_schema_nil_slice (f : Feature) (w : NativeWorld)
    (h0 : NativeWorld.fieldCount w f.handle = 0) :
    Feature.Fields f w = none := by
  simp [Feature.Fields, h0]

/-- Witness for C4: a feature created against a layer with no attribute
fields. -/
theorem c4_witness :
    Feature.Fields { handle := some 4 } [(4, { slots := [] })] = none :=
  c4_empty_schema_nil_slice { handle := some 4 } [(4, { slots := [] })] rfl

/-- C8: the two named operations panic on empty input instead of returning
errors — `NewGeometryFromWKB` dereferences `&wkb[0]` and the `FTBinary`
branch of `SetValue` dereferences `&bytesValue[0]`, both of which are Go
runtime panics on an empty slice, reached before any native call.  This
evaluates the code at the two failing inputs of the claim. -/
theorem c8_empty_slice_panics :
    NewGeometryFromWKB [] none (some 11) none
      = .panicked "runtime error: index out of range [0] with length 0" ∧
    FieldValueQuerier.SetValue { srcFeature := some { handle := some 6 } }
        [(6, { slots := [{ name := "binaryCol", declType := .FTBinary,
                           data := none }] })]
        { index := 0, name := "binaryCol", isSet := false, ftype := .FTBinary,
          val := .vNil }
        (.vBinary [])
      = .panicked "runtime error: index out of range [0] with length 0" := by
  constructor <;> rfl

/-- C10: `GetValue` depends only on its `Field` argument — its result is the
same for every querier state (nil, closed or live bound feature), so snapshot
reads stay valid after the feature is closed — while `SetValue` fails with
the dedicated errors when the bound feature pointer is nil or its handle has
been closed. -/
theorem c10_getvalue_querier_independent :
    (∀ (fvq1 fvq2 : FieldValueQuerier) (T : FVType) (field : Field),
        FieldValueQuerier.GetValue fvq1 T field
          = FieldValueQuerier.GetValue fvq2 T field) ∧
    (∀ (w : NativeWorld) (field : Field) (value : GoVal),
        FieldValueQuerier.SetValue { srcFeature := none } w field value
          = .goErr "source feature is nil") ∧
    (∀ (fvq : FieldValueQuerier) (f : Feature) (w : NativeWorld)
        (field : Field) (value : GoVal),
        fvq.srcFeature = some f → f.handle = none →
        FieldValueQuerier.SetValue fvq w field value
          = .goErr "invalid source feature, probably closed") := by
  refine ⟨fun _ _ _ _ => rfl, fun _ _ _ => rfl, ?_⟩
  intro fvq f w field value hq hf
  simp [FieldValueQuerier.SetValue, hq, hf]

/-- Witness for C10: the same snapshot field read through a nil querier, a
querier over a closed feature and a live querier gives identical results, and
writes through the first two fail. -/
theorem c10_witness :
    (FieldValueQuerier.GetValue { srcFeature := none } .fvInt
        { index := 0, name := "c", isSet := true, ftype := .FTInt,
          val := .vInt 7 }
      = FieldValueQuerier.GetValue { srcFeature := some { handle := some 9 } }
          .fvInt
          { index := 0, name := "c", isSet := true, ftype := .FTInt,
            val := .vInt 7 }) ∧
    (FieldValueQuerier.SetValue { srcFeature := none } []
        { index := 0, name := "c", isSet := true, ftype := .FTInt,
          val := .vInt 7 } (.vInt 8)
      = .goErr "source feature is nil") ∧
    (FieldValueQuerier.SetValue { srcFeature := some { handle := none } } []
        { index := 0, name := "c", isSet := true, ftype := .FTInt,
          val := .vInt 7 } (.vInt 8)
      = .goErr "invalid source feature, probably closed") :=
  ⟨c10_getvalue_querier_independent.1 { srcFeature := none }
      { srcFeature := some { handle := some 9 } } .fvInt
      { index := 0, name := "c", isSet := true, ftype := .FTInt,
        val := .vInt 7 },
   c10_getvalue_querier_independent.2.1 []
      { index := 0, name := "c", isSet := true, ftype := .FTInt,
        val := .vInt 7 } (.vInt 8),
   c10_getvalue_querier_independent.2.2 { srcFeature := some { handle := none } }
      { handle := none } []
      { index := 0, name := "c", isSet := true, ftype := .FTInt,
        val := .vInt 7 } (.vInt 8) rfl rfl⟩

/-- C6: typed get is exact-match only.  For every field of a snapshot
produced by `Feature.Fields`, `GetValue` with type parameter `T` succeeds
(returning the cached value) exactly when the field's kind corresponds to `T`
under the kind/type correspondence `FieldType.valType`, and otherwise fails
with the type-mismatch error.  Since `FTInt` corresponds to `int` only and
`FTInt64` to `int64` only, there is no implicit numeric widening or
narrowing: requesting `int64` from a field of kind `FTInt` fails. -/
theorem c6_getvalue_exact_match (fvq : FieldValueQuerier) (f : Feature)
    (w : NativeWorld) (flds : List Field) (field : Field) (T : FVType)
    (hsnap : Feature.Fields f w = some flds) (hmem : field ∈ flds) :
    (field.ftype.valType = some T →
        FieldValueQuerier.GetValue fvq T field = .ok field.val) ∧
    (field.ftype.valType ≠ some T →
        FieldValueQuerier.GetValue fvq T field
          = .goErr "requested type is not suitable for this type of field") := by
  have hwf : field.val.typeOf = field.ftype.valType := by
    simp only [Feature.Fields] at hsnap
    by_cases h0 : NativeWorld.fieldCount w f.handle = 0
    · rw [if_pos h0] at hsnap; exact absurd hsnap (by simp)
    · rw [if_neg h0] at hsnap
      injection hsnap with hflds
      subst hflds
      obtain ⟨fid, _, rfl⟩ := List.mem_map.mp hmem
      exact fieldsEntry_val_typeOf f w fid
  constructor
  · intro hT
    simp [FieldValueQuerier.GetValue, hwf, hT]
  · intro hT
    simp [FieldValueQuerier.GetValue, hwf, hT]

/-- Witness for C6: on a one-field snapshot of kind Int holding 3, `GetValue`
with `int` succeeds with 3, and `GetValue` with `int64` (a widening request)
fails with the type-mismatch error. -/
theorem c6_witness :
    FieldValueQuerier.GetValue { srcFeature := some { handle := some 1 } }
        .fvInt
        (Feature.fieldsEntry { handle := some 1 }
          [(1, { slots := [{ name := "intCol", declType := .FTInt,
                             data := some (.pInt 3) }] })] 0)
      = .ok (.vInt 3) ∧
    FieldValueQuerier.GetValue { srcFeature := some { handle := some 1 } }
        .fvInt64
        (Feature.fieldsEntry { handle := some 1 }
          [(1, { slots := [{ name := "intCol", declType := .FTInt,
                             data := some (.pInt 3) }] })] 0)
      = .goErr "requested type is not suitable for this type of field" := by
  constructor
  · exact ((c6_getvalue_exact_match
      { srcFeature := some { handle := some 1 } } { handle := some 1 }
      [(1, { slots := [{ name := "intCol", declType := .FTInt,
                         data := some (.pInt 3) }] })]
      [Feature.fieldsEntry { handle := some 1 }
        [(1, { slots := [{ name := "intCol", declType := .FTInt,
                           data := some (.pInt 3) }] })] 0]
      (Feature.fieldsEntry { handle := some 1 }
        [(1, { slots := [{ name := "intCol", declType := .FTInt,
                           data := some (.pInt 3) }] })] 0)
      .fvInt (by decide) (List.mem_singleton.mpr rfl)).1 (by decide)).trans
      (by decide)
  · exact (c6_getvalue_exact_match
      { srcFeature := some { handle := some 1 } } { handle := some 1 }
      [(1, { slots := [{ name := "intCol", declType := .FTInt,
                         data := some (.pInt 3) }] })]
      [Feature.fieldsEntry { handle := some 1 }
        [(1, { slots := [{ name := "intCol", declType := .FTInt,
                           data := some (.pInt 3) }] })] 0]
      (Feature.fieldsEntry { handle := some 1 }
        [(1, { slots := [{ name := "intCol", declType := .FTInt,
                           data := some (.pInt 3) }] })] 0)
      .fvInt64 (by decide) (List.mem_singleton.mpr rfl)).2 (by decide)

/-- Counterexample to C5: with a live bound feature, `SetValue` of a
matching-typed empty value does not succeed on a Binary-kind field (Go
runtime panic from `&bytesValue[0]`) nor on an Int64List-kind field (Go
runtime panic from `&ret[0]` inside the `cLongArray` marshalling helper,
`vector.go` lines 1174-1180). -/
theorem c5_counterexample :
    FieldValueQuerier.SetValue { srcFeature := some { handle := some 2 } }
        [(2, { slots := [{ name := "binaryCol", declType := .FTBinary,
                           data := none }] })]
        { index := 0, name := "binaryCol", isSet := false, ftype := .FTBinary,
          val := .vNil }
        (.vBinary [])
      = .panicked "runtime error: index out of range [0] with length 0" ∧
    (FieldValueQuerier.SetValue { srcFeature := some { handle := some 2 } }
        [(2, { slots := [{ name := "binaryCol", declType := .FTBinary,
                           data := none }] })]
        { index := 0, name := "binaryCol", isSet := false, ftype := .FTBinary,
          val := .vNil }
        (.vBinary [])).isOk = false ∧
    FieldValueQuerier.SetValue { srcFeature := some { handle := some 2 } }
        [(2, { slots := [{ name := "i64ListCol", declType := .FTInt64List,
                           data := none }] })]
        { index := 0, name := "i64ListCol", isSet := false,
          ftype := .FTInt64List, val := .vNil }
        (.vInt64List [])
      = .panicked "runtime error: index out of range [0] with length 0" ∧
    (FieldValueQuerier.SetValue { srcFeature := some { handle := some 2 } }
        [(2, { slots := [{ name := "i64ListCol", declType := .FTInt64List,
                           data := none }] })]
        { index := 0, name := "i64ListCol", isSet := false,
          ftype := .FTInt64List, val := .vNil }
        (.vInt64List [])).isOk = false :=
  ⟨rfl, rfl, rfl, rfl⟩

/-- C5 (amended): typed field round trip.  Given a live bound feature whose
native feature has a slot at the field's index, a field of any kind other
than `FTUnknown`, and a value of the kind's matching dynamic type — non-empty
for the `FTBinary`, `FTIntList`, `FTInt64List` and `FTRealList` kinds, whose
empty values instead panic on an empty-slice dereference (`&bytesValue[0]`,
or `&ret[0]` inside the `cIntArray`/`cLongArray`/`cDoubleArray` marshalling
helpers; see the counterexample) — `SetValue` succeeds, returning the field
with its local `isSet` set to true and the written value cached in `val`,
and `GetValue` on that updated in-memory field returns the written value.
`GetValue` takes no native store argument at all: it reads only the cached
`val`, so the read happens without re-reading the native feature. -/
theorem c5_typed_field_round_trip (fvq : FieldValueQuerier) (f : Feature)
    (h : Nat) (w : NativeWorld) (field : Field) (value : GoVal) (T : FVType)
    (hq : fvq.srcFeature = some f) (hf : f.handle = some h)
    (hslot : (NativeWorld.slotAt w (some h) field.index).isSome = true)
    (hkind : field.ftype.valType = some T) (hval : value.typeOf = some T)
    (hbin : field.ftype = .FTBinary → value ≠ .vBinary [])
    (hil : field.ftype = .FTIntList → value ≠ .vIntList [])
    (hi64l : field.ftype = .FTInt64List → value ≠ .vInt64List [])
    (hrl : field.ftype = .FTRealList → value ≠ .vRealList []) :
    ∃ w2 : NativeWorld,
      FieldValueQuerier.SetValue fvq w field value
        = .ok ({ field with isSet := true, val := value }, w2) ∧
      FieldValueQuerier.GetValue fvq T
          { field with isSet := true, val := value }
        = .ok value := by
  have hget : FieldValueQuerier.GetValue fvq T
      { field with isSet := true, val := value } = .ok value := by
    simp [FieldValueQuerier.GetValue, hval]
  cases hft : field.ftype <;> rw [hft] at hkind hbin hil hi64l hrl <;>
    simp [FieldType.valType] at hkind
  case FTInt =>
    subst hkind
    cases value <;> simp [GoVal.typeOf] at hval
    rename_i i
    rw [hft] at hget
    refine ⟨NativeWorld.setField w h field.index (.pInt i), ?_, hget⟩
    simp only [FieldValueQuerier.SetValue, hq, hf, hft]
    have hfin := setValueFinish_ok h field (.pInt i) w (.vInt i) hslot
    rw [hft] at hfin
    exact hfin
  case FTInt64 =>
    subst hkind
    cases value <;> simp [GoVal.typeOf] at hval
    rename_i i
    rw [hft] at hget
    refine ⟨NativeWorld.setField w h field.index (.pInt64 i), ?_, hget⟩
    simp only [FieldValueQuerier.SetValue, hq, hf, hft]
    have hfin := setValueFinish_ok h field (.pInt64 i) w (.vInt64 i) hslot
    rw [hft] at hfin
    exact hfin
  case FTReal =>
    subst hkind
    cases value <;> simp [GoVal.typeOf] at hval
    rename_i r
    rw [hft] at hget
    refine ⟨NativeWorld.setField w h field.index (.pReal r), ?_, hget⟩
    simp only [FieldValueQuerier.SetValue, hq, hf, hft]
    have hfin := setValueFinish_ok h field (.pReal r) w (.vReal r) hslot
    rw [hft] at hfin
    exact hfin
  case FTString =>
    subst hkind
    cases value <;> simp [GoVal.typeOf] at hval
    rename_i s
    rw [hft] at hget
    refine ⟨NativeWorld.setField w h field.index (.pString s), ?_, hget⟩
    simp only [FieldValueQuerier.SetValue, hq, hf, hft]
    have hfin := setValueFinish_ok h field (.pString s) w (.vString s) hslot
    rw [hft] at hfin
    exact hfin
  case FTDate =>
    subst hkind
    cases value <;> simp [GoVal.typeOf] at hval
    rename_i t
    rw [hft] at hget
    refine ⟨NativeWorld.setField w h field.index (.pDateTime t.year t.month t.day t.hour t.minute t.second 1), ?_, hget⟩
    simp only [FieldValueQuerier.SetValue, hq, hf, hft]
    have hfin := setValueFinish_ok h field (.pDateTime t.year t.month t.day t.hour t.minute t.second 1) w (.vTime t) hslot
    rw [hft] at hfin
    exact hfin
  case FTTime =>
    subst hkind
    cases value <;> simp [GoVal.typeOf] at hval
    rename_i t
    rw [hft] at hget
    refine ⟨NativeWorld.setField w h field.index (.pDateTime t.year t.month t.day t.hour t.minute t.second 1), ?_, hget⟩
    simp only [FieldValueQuerier.SetValue, hq, hf, hft]
    have hfin := setValueFinish_ok h field (.pDateTime t.year t.month t.day t.hour t.minute t.second 1) w (.vTime t) hslot
    rw [hft] at hfin
    exact hfin
  case FTDateTime =>
    subst hkind
    cases value <;> simp [GoVal.typeOf] at hval
    rename_i t
    rw [hft] at hget
    refine ⟨NativeWorld.setField w h field.index (.pDateTime t.year t.month t.day t.hour t.minute t.second 1), ?_, hget⟩
    simp only [FieldValueQuerier.SetValue, hq, hf, hft]
    have hfin := setValueFinish_ok h field (.pDateTime t.year t.month t.day t.hour t.minute t.second 1) w (.vTime t) hslot
    rw [hft] at hfin
    exact hfin
  case FTIntList =>
    subst hkind
    cases value <;> simp [GoVal.typeOf] at hval
    rename_i xs
    cases xs with
    | nil => exact (hil rfl rfl).elim
    | cons x rest =>
      rw [hft] at hget
      refine ⟨NativeWorld.setField w h field.index (.pIntList (x :: rest)), ?_,
        hget⟩
      simp only [FieldValueQuerier.SetValue, hq, hf, hft, List.isEmpty_cons,
        Bool.false_eq_true, if_false]
      have hfin := setValueFinish_ok h field (.pIntList (x :: rest)) w
        (.vIntList (x :: rest)) hslot
      rw [hft] at hfin
      exact hfin
  case FTInt64List =>
    subst hkind
    cases value <;> simp [GoVal.typeOf] at hval
    rename_i xs
    cases xs with
    | nil => exact (hi64l rfl rfl).elim
    | cons x rest =>
      rw [hft] at hget
      refine ⟨NativeWorld.setField w h field.index (.pInt64List (x :: rest)), ?_,
        hget⟩
      simp only [FieldValueQuerier.SetValue, hq, hf, hft, List.isEmpty_cons,
        Bool.false_eq_true, if_false]
      have hfin := setValueFinish_ok h field (.pInt64List (x :: rest)) w
        (.vInt64List (x :: rest)) hslot
      rw [hft] at hfin
      exact hfin
  case FTRealList =>
    subst hkind
    cases value <;> simp [GoVal.typeOf] at hval
    rename_i xs
    cases xs with
    | nil => exact (hrl rfl rfl).elim
    | cons x rest =>
      rw [hft] at hget
      refine ⟨NativeWorld.setField w h field.index (.pRealList (x :: rest)), ?_,
        hget⟩
      simp only [FieldValueQuerier.SetValue, hq, hf, hft, List.isEmpty_cons,
        Bool.false_eq_true, if_false]
      have hfin := setValueFinish_ok h field (.pRealList (x :: rest)) w
        (.vRealList (x :: rest)) hslot
      rw [hft] at hfin
      exact hfin
  case FTStringList =>
    subst hkind
    cases value <;> simp [GoVal.typeOf] at hval
    rename_i xs
    rw [hft] at hget
    refine ⟨NativeWorld.setField w h field.index (.pStringList xs), ?_, hget⟩
    simp only [FieldValueQuerier.SetValue, hq, hf, hft]
    have hfin := setValueFinish_ok h field (.pStringList xs) w (.vStringList xs) hslot
    rw [hft] at hfin
    exact hfin
  case FTBinary =>
    subst hkind
    cases value <;> simp [GoVal.typeOf] at hval
    rename_i bs
    cases bs with
    | nil => exact (hbin rfl rfl).elim
    | cons b rest =>
      rw [hft] at hget
      refine ⟨NativeWorld.setField w h field.index (.pBinary (b :: rest)), ?_,
        hget⟩
      simp only [FieldValueQuerier.SetValue, hq, hf, hft, List.isEmpty_cons,
        Bool.false_eq_true, if_false]
      have hfin := setValueFinish_ok h field (.pBinary (b :: rest)) w
        (.vBinary (b :: rest)) hslot
      rw [hft] at hfin
      exact hfin

/-- Witness for C5: writing the string "foo" into a live feature's String
field succeeds, marks it set, caches the value, and reading it back through
`GetValue` yields "foo". -/
theorem c5_witness :
    ∃ w2 : NativeWorld,
      FieldValueQuerier.SetValue { srcFeature := some { handle := some 5 } }
          [(5, { slots := [{ name := "strCol", declType := .FTString,
                             data := none }] })]
          { index := 0, name := "strCol", isSet := false, ftype := .FTString,
            val := .vString "" }
          (.vString "foo")
        = .ok ({ index := 0, name := "strCol", isSet := true,
                 ftype := .FTString, val := .vString "foo" }, w2) ∧
      FieldValueQuerier.GetValue { srcFeature := some { handle := some 5 } }
          .fvString
          { index := 0, name := "strCol", isSet := true, ftype := .FTString,
            val := .vString "foo" }
        = .ok (.vString "foo") :=
  c5_typed_field_round_trip { srcFeature := some { handle := some 5 } }
    { handle := some 5 } 5
    [(5, { slots := [{ name := "strCol", declType := .FTString,
                       data := none }] })]
    { index := 0, name := "strCol", isSet := false, ftype := .FTString,
      val := .vString "" }
    (.vString "foo") .fvString rfl rfl (by decide) (by decide) (by decide)
    (by decide) (by decide) (by decide) (by decide)

/-- C9: temporal write/read asymmetry.  Writing any `time.Time` value `v`
into a Date, Time or DateTime field of a live feature succeeds, and
re-snapshotting the feature's fields yields at that index a time whose year,
month, day, hour, minute and second equal those of `v`, but whose location is
always UTC and whose sub-second part is always zero — the location and
nanoseconds of `v`, and the tz flag written by the native call, are not
reconstructed on read back. -/
theorem c9_temporal_write_read_asymmetry (fvq : FieldValueQuerier)
    (f : Feature) (h : Nat) (w : NativeWorld) (field : Field)
    (slot : NativeSlot) (v : GoTime)
    (hq : fvq.srcFeature = some f) (hf : f.handle = some h)
    (hslot : NativeWorld.slotAt w (some h) field.index = some slot)
    (hdecl : slot.declType = field.ftype)
    (ht : field.ftype = .FTDate ∨ field.ftype = .FTTime ∨
      field.ftype = .FTDateTime) :
    ∃ (field2 : Field) (w2 : NativeWorld) (flds : List Field) (fld2 : Field),
      FieldValueQuerier.SetValue fvq w field (.vTime v) = .ok (field2, w2) ∧
      Feature.Fields f w2 = some flds ∧
      flds[field.index]? = some fld2 ∧
      fld2.ftype = field.ftype ∧
      fld2.val = .vTime (timeDate v.year v.month v.day v.hour v.minute
        v.second 0 GoLoc.utc) := by
  rcases ht with hft | hft | hft
  · have hissome : (NativeWorld.slotAt w (some h) field.index).isSome = true := by
      rw [hslot]; rfl
    have hfin := setValueFinish_ok h field
      (.pDateTime v.year v.month v.day v.hour v.minute v.second 1) w (.vTime v) hissome
    rw [hft] at hfin
    have hset : FieldValueQuerier.SetValue fvq w field (.vTime v)
        = .ok ({ field with isSet := true, val := .vTime v },
               NativeWorld.setField w h field.index
                 (.pDateTime v.year v.month v.day v.hour v.minute v.second 1)) := by
      simp only [FieldValueQuerier.SetValue, hq, hf, hft]
      exact hfin
    have hslot2 : NativeWorld.slotAt
        (NativeWorld.setField w h field.index (.pDateTime v.year v.month v.day v.hour v.minute v.second 1))
        (some h) field.index
      = some { slot with data := some (.pDateTime v.year v.month v.day v.hour v.minute v.second 1) } := by
      rw [slotAt_setField_self, hslot]; rfl
    have hcount : field.index < NativeWorld.fieldCount w (some h) := by
      simp only [NativeWorld.slotAt] at hslot
      cases hfind : findFeat w h with
      | none => simp [hfind] at hslot
      | some nf =>
        simp only [hfind] at hslot
        simp only [NativeWorld.fieldCount, hfind]
        exact (List.getElem?_eq_some.mp hslot).1
    have hcnt2 : NativeWorld.fieldCount
        (NativeWorld.setField w h field.index (.pDateTime v.year v.month v.day v.hour v.minute v.second 1)) (some h)
      = NativeWorld.fieldCount w (some h) :=
      fieldCount_setField w h field.index (.pDateTime v.year v.month v.day v.hour v.minute v.second 1)
    have hidx2 : field.index < NativeWorld.fieldCount
        (NativeWorld.setField w h field.index (.pDateTime v.year v.month v.day v.hour v.minute v.second 1)) f.handle := by
      rw [hf, hcnt2]; exact hcount
    have hn0 : ¬ NativeWorld.fieldCount
        (NativeWorld.setField w h field.index (.pDateTime v.year v.month v.day v.hour v.minute v.second 1)) f.handle = 0 := by
      omega
    have hfields : Feature.Fields f
        (NativeWorld.setField w h field.index (.pDateTime v.year v.month v.day v.hour v.minute v.second 1))
      = some ((List.range (NativeWorld.fieldCount
            (NativeWorld.setField w h field.index (.pDateTime v.year v.month v.day v.hour v.minute v.second 1)) f.handle)).map
          (Feature.fieldsEntry f
            (NativeWorld.setField w h field.index (.pDateTime v.year v.month v.day v.hour v.minute v.second 1)))) := by
      simp only [Feature.Fields, if_neg hn0]
    have hget2 : ((List.range (NativeWorld.fieldCount
            (NativeWorld.setField w h field.index (.pDateTime v.year v.month v.day v.hour v.minute v.second 1)) f.handle)).map
          (Feature.fieldsEntry f
            (NativeWorld.setField w h field.index (.pDateTime v.year v.month v.day v.hour v.minute v.second 1))))[field.index]?
        = some (Feature.fieldsEntry f
            (NativeWorld.setField w h field.index (.pDateTime v.year v.month v.day v.hour v.minute v.second 1)) field.index) := by
      rw [List.getElem?_map, List.getElem?_range hidx2]; rfl
    have hdecl2 : NativeWorld.fieldDeclType
        (NativeWorld.setField w h field.index (.pDateTime v.year v.month v.day v.hour v.minute v.second 1)) f.handle field.index
      = .FTDate := by
      simp only [NativeWorld.fieldDeclType, hf, hslot2]
      rw [hdecl]; exact hft
    have hdt : NativeWorld.getAsDateTime
        (NativeWorld.setField w h field.index (.pDateTime v.year v.month v.day v.hour v.minute v.second 1)) f.handle field.index
      = some (v.year, v.month, v.day, v.hour, v.minute, v.second, 1) := by
      simp only [NativeWorld.getAsDateTime, hf, hslot2]
    have hentry : (Feature.fieldsEntry f
          (NativeWorld.setField w h field.index (.pDateTime v.year v.month v.day v.hour v.minute v.second 1)) field.index).ftype
        = .FTDate ∧
        (Feature.fieldsEntry f
          (NativeWorld.setField w h field.index (.pDateTime v.year v.month v.day v.hour v.minute v.second 1)) field.index).val
        = .vTime (timeDate v.year v.month v.day v.hour v.minute v.second 0
            GoLoc.utc) := by
      simp only [Feature.fieldsEntry, hdecl2, Feature.getFieldAsDateTime, hdt]
      exact ⟨trivial, trivial⟩
    exact ⟨_, _, _, _, hset, hfields, hget2, hentry.1.trans hft.symm, hentry.2⟩
  · have hissome : (NativeWorld.slotAt w (some h) field.index).isSome = true := by
      rw [hslot]; rfl
    have hfin := setValueFinish_ok h field
      (.pDateTime v.year v.month v.day v.hour v.minute v.second 1) w (.vTime v) hissome
    rw [hft] at hfin
    have hset : FieldValueQuerier.SetValue fvq w field (.vTime v)
        = .ok ({ field with isSet := true, val := .vTime v },
               NativeWorld.setField w h field.index
                 (.pDateTime v.year v.month v.day v.hour v.minute v.second 1)) := by
      simp only [FieldValueQuerier.SetValue, hq, hf, hft]
      exact hfin
    have hslot2 : NativeWorld.slotAt
        (NativeWorld.setField w h field.index (.pDateTime v.year v.month v.day v.hour v.minute v.second 1))
        (some h) field.index
      = some { slot with data := some (.pDateTime v.year v.month v.day v.hour v.minute v.second 1) } := by
      rw [slotAt_setField_self, hslot]; rfl
    have hcount : field.index < NativeWorld.fieldCount w (some h) := by
      simp only [NativeWorld.slotAt] at hslot
      cases hfind : findFeat w h with
      | none => simp [hfind] at hslot
      | some nf =>
        simp only [hfind] at hslot
        simp only [NativeWorld.fieldCount, hfind]
        exact (List.getElem?_eq_some.mp hslot).1
    have hcnt2 : NativeWorld.fieldCount
        (NativeWorld.setField w h field.index (.pDateTime v.year v.month v.day v.hour v.minute v.second 1)) (some h)
      = NativeWorld.fieldCount w (some h) :=
      fieldCount_setField w h field.index (.pDateTime v.year v.month v.day v.hour v.minute v.second 1)
    have hidx2 : field.index < NativeWorld.fieldCount
        (NativeWorld.setField w h field.index (.pDateTime v.year v.month v.day v.hour v.minute v.second 1)) f.handle := by
      rw [hf, hcnt2]; exact hcount
    have hn0 : ¬ NativeWorld.fieldCount
        (NativeWorld.setField w h field.index (.pDateTime v.year v.month v.day v.hour v.minute v.second 1)) f.handle = 0 := by
      omega
    have hfields : Feature.Fields f
        (NativeWorld.setField w h field.index (.pDateTime v.year v.month v.day v.hour v.minute v.second 1))
      = some ((List.range (NativeWorld.fieldCount
            (NativeWorld.setField w h field.index (.pDateTime v.year v.month v.day v.hour v.minute v.second 1)) f.handle)).map
          (Feature.fieldsEntry f
            (NativeWorld.setField w h field.index (.pDateTime v.year v.month v.day v.hour v.minute v.second 1)))) := by
      simp only [Feature.Fields, if_neg hn0]
    have hget2 : ((List.range (NativeWorld.fieldCount
            (NativeWorld.setField w h field.index (.pDateTime v.year v.month v.day v.hour v.minute v.second 1)) f.handle)).map
          (Feature.fieldsEntry f
            (NativeWorld.setField w h field.index (.pDateTime v.year v.month v.day v.hour v.minute v.second 1))))[field.index]?
        = some (Feature.fieldsEntry f
            (NativeWorld.setField w h field.index (.pDateTime v.year v.month v.day v.hour v.minute v.second 1)) field.index) := by
      rw [List.getElem?_map, List.getElem?_range hidx2]; rfl
    have hdecl2 : NativeWorld.fieldDeclType
        (NativeWorld.setField w h field.index (.pDateTime v.year v.month v.day v.hour v.minute v.second 1)) f.handle field.index
      = .FTTime := by
      simp only [NativeWorld.fieldDeclType, hf, hslot2]
      rw [hdecl]; exact hft
    have hdt : NativeWorld.getAsDateTime
        (NativeWorld.setField w h field.index (.pDateTime v.year v.month v.day v.hour v.minute v.second 1)) f.handle field.index
      = some (v.year, v.month, v.day, v.hour, v.minute, v.second, 1) := by
      simp only [NativeWorld.getAsDateTime, hf, hslot2]
    have hentry : (Feature.fieldsEntry f
          (NativeWorld.setField w h field.index (.pDateTime v.year v.month v.day v.hour v.minute v.second 1)) field.index).ftype
        = .FTTime ∧
        (Feature.fieldsEntry f
          (NativeWorld.setField w h field.index (.pDateTime v.year v.month v.day v.hour v.minute v.second 1)) field.index).val
        = .vTime (timeDate v.year v.month v.day v.hour v.minute v.second 0
            GoLoc.utc) := by
      simp only [Feature.fieldsEntry, hdecl2, Feature.getFieldAsDateTime, hdt]
      exact ⟨trivial, trivial⟩
    exact ⟨_, _, _, _, hset, hfields, hget2, hentry.1.trans hft.symm, hentry.2⟩
  · have hissome : (NativeWorld.slotAt w (some h) field.index).isSome = true := by
      rw [hslot]; rfl
    have hfin := setValueFinish_ok h field
      (.pDateTime v.year v.month v.day v.hour v.minute v.second 1) w (.vTime v) hissome
    rw [hft] at hfin
    have hset : FieldValueQuerier.SetValue fvq w field (.vTime v)
        = .ok ({ field with isSet := true, val := .vTime v },
               NativeWorld.setField w h field.index
                 (.pDateTime v.year v.month v.day v.hour v.minute v.second 1)) := by
      simp only [FieldValueQuerier.SetValue, hq, hf, hft]
      exact hfin
    have hslot2 : NativeWorld.slotAt
        (NativeWorld.setField w h field.index (.pDateTime v.year v.month v.day v.hour v.minute v.second 1))
        (some h) field.index
      = some { slot with data := some (.pDateTime v.year v.month v.day v.hour v.minute v.second 1) } := by
      rw [slotAt_setField_self, hslot]; rfl
    have hcount : field.index < NativeWorld.fieldCount w (some h) := by
      simp only [NativeWorld.slotAt] at hslot
      cases hfind : findFeat w h with
      | none => simp [hfind] at hslot
      | some nf =>
        simp only [hfind] at hslot
        simp only [NativeWorld.fieldCount, hfind]
        exact (List.getElem?_eq_some.mp hslot).1
    have hcnt2 : NativeWorld.fieldCount
        (NativeWorld.setField w h field.index (.pDateTime v.year v.month v.day v.hour v.minute v.second 1)) (some h)
      = NativeWorld.fieldCount w (some h) :=
      fieldCount_setField w h field.index (.pDateTime v.year v.month v.day v.hour v.minute v.second 1)
    have hidx2 : field.index < NativeWorld.fieldCount
        (NativeWorld.setField w h field.index (.pDateTime v.year v.month v.day v.hour v.minute v.second 1)) f.handle := by
      rw [hf, hcnt2]; exact hcount
    have hn0 : ¬ NativeWorld.fieldCount
        (NativeWorld.setField w h field.index (.pDateTime v.year v.month v.day v.hour v.minute v.second 1)) f.handle = 0 := by
      omega
    have hfields : Feature.Fields f
        (NativeWorld.setField w h field.index (.pDateTime v.year v.month v.day v.hour v.minute v.second 1))
      = some ((List.range (NativeWorld.fieldCount
            (NativeWorld.setField w h field.index (.pDateTime v.year v.month v.day v.hour v.minute v.second 1)) f.handle)).map
          (Feature.fieldsEntry f
            (NativeWorld.setField w h field.index (.pDateTime v.year v.month v.day v.hour v.minute v.second 1)))) := by
      simp only [Feature.Fields, if_neg hn0]
    have hget2 : ((List.range (NativeWorld.fieldCount
            (NativeWorld.setField w h field.index (.pDateTime v.year v.month v.day v.hour v.minute v.second 1)) f.handle)).map
          (Feature.fieldsEntry f
            (NativeWorld.setField w h field.index (.pDateTime v.year v.month v.day v.hour v.minute v.second 1))))[field.index]?
        = some (Feature.fieldsEntry f
            (NativeWorld.setField w h field.index (.pDateTime v.year v.month v.day v.hour v.minute v.second 1)) field.index) := by
      rw [List.getElem?_map, List.getElem?_range hidx2]; rfl
    have hdecl2 : NativeWorld.fieldDeclType
        (NativeWorld.setField w h field.index (.pDateTime v.year v.month v.day v.hour v.minute v.second 1)) f.handle field.index
      = .FTDateTime := by
      simp only [NativeWorld.fieldDeclType, hf, hslot2]
      rw [hdecl]; exact hft
    have hdt : NativeWorld.getAsDateTime
        (NativeWorld.setField w h field.index (.pDateTime v.year v.month v.day v.hour v.minute v.second 1)) f.handle field.index
      = some (v.year, v.month, v.day, v.hour, v.minute, v.second, 1) := by
      simp only [NativeWorld.getAsDateTime, hf, hslot2]
    have hentry : (Feature.fieldsEntry f
          (NativeWorld.setField w h field.index (.pDateTime v.year v.month v.day v.hour v.minute v.second 1)) field.index).ftype
        = .FTDateTime ∧
        (Feature.fieldsEntry f
          (NativeWorld.setField w h field.index (.pDateTime v.year v.month v.day v.hour v.minute v.second 1)) field.index).val
        = .vTime (timeDate v.year v.month v.day v.hour v.minute v.second 0
            GoLoc.utc) := by
      simp only [Feature.fieldsEntry, hdecl2, Feature.getFieldAsDateTime, hdt]
      exact ⟨trivial, trivial⟩
    exact ⟨_, _, _, _, hset, hfields, hget2, hentry.1.trans hft.symm, hentry.2⟩

/-- Witness for C9: writing 2000-01-02 10:30:05.123456789 in a +01:00 zone
into a Date field and re-snapshotting returns 2000-01-02 10:30:05 UTC with a
zero sub-second part. -/
theorem c9_witness :
    ∃ (field2 : Field) (w2 : NativeWorld) (flds : List Field) (fld2 : Field),
      FieldValueQuerier.SetValue { srcFeature := some { handle := some 3 } }
          [(3, { slots := [{ name := "dateCol", declType := .FTDate,
                             data := none }] })]
          { index := 0, name := "dateCol", isSet := false, ftype := .FTDate,
            val := .vNil }
          (.vTime (timeDate 2000 1 2 10 30 5 123456789
            (GoLoc.fixedZone 3600)))
        = .ok (field2, w2) ∧
      Feature.Fields { handle := some 3 } w2 = some flds ∧
      flds[(0 : Nat)]? = some fld2 ∧
      fld2.ftype = .FTDate ∧
      fld2.val = .vTime (timeDate 2000 1 2 10 30 5 0 GoLoc.utc) := by
  have hmain := c9_temporal_write_read_asymmetry
    { srcFeature := some { handle := some 3 } } { handle := some 3 } 3
    [(3, { slots := [{ name := "dateCol", declType := .FTDate,
                       data := none }] })]
    { index := 0, name := "dateCol", isSet := false, ftype := .FTDate,
      val := .vNil }
    { name := "dateCol", declType := .FTDate, data := none }
    (timeDate 2000 1 2 10 30 5 123456789 (GoLoc.fixedZone 3600))
    rfl rfl (by decide) rfl (Or.inl rfl)
  simpa [timeDate] using hmain

end Godal
